import Mathlib

/-!
Shallow embedding of the Catalog_Enrichment_Scraper repository
(src/main.py, src/scrapers/amazon_scraper.py,
src/connectors/baserow_connector.py), together with theorems settling the
frozen claims about it.

Conventions of the embedding:
* Python dicts whose keys matter to the pipeline are modelled as association
  lists `List (String × PyVal)` built in the source's key-insertion order;
  in every dict the pipeline constructs, no key is assigned twice, so
  first-match lookup coincides with Python lookup.
* Python `None` is `PyVal.null`; truthiness of a value follows Python
  (`""` and `0` and `None` are falsy).
* `scrape_product` is modelled by its observable outcome per identifier and
  pass: a not-found return, a found return carrying the scraped record, or a
  raised exception (`ScrapeOutcome.fault`).  The run is parameterised by one
  such oracle per pass.
* The run is modelled on its normal-termination path with a successfully
  initialised driver; per-identifier exceptions are part of the model
  (`fault`), process-level crashes are modelled only where a claim needs
  them (the checkpoint-save crash states).
-/

namespace CatalogScraper

/-- A Python value as it appears in the pipeline's dicts: a string, a
Baserow row id (integer), or `None`. -/
inductive PyVal where
  | str (s : String)
  | int (n : Nat)
  | null
deriving DecidableEq

/-- A Python dict with string keys, as an association list in key-insertion
order.  All dicts built by the pipeline assign each key at most once. -/
abbrev Dict := List (String × PyVal)

/-- `d.get(k)` distinguishing key-absent (`none`) from key-present. -/
def dictGet (d : Dict) (k : String) : Option PyVal :=
  (d.find? (fun p => p.1 == k)).map (fun p => p.2)

/-- Python truthiness of a value. -/
def pyTruthy : PyVal → Bool
  | .str s => s ≠ ""
  | .int n => n ≠ 0
  | .null => false

/-- Truthiness of `d.get(k)` (absent key is falsy, like Python `dict.get`). -/
def truthyGet (d : Dict) (k : String) : Bool :=
  match dictGet d k with
  | some v => pyTruthy v
  | none => false

/-- Truthiness of an optional string (Python: `None` and `""` are falsy). -/
def optTruthy : Option String → Bool
  | some s => s ≠ ""
  | none => false

/-- Embed an optional string as a dict value (`None` for absence). -/
def optVal : Option String → PyVal
  | some s => .str s
  | none => .null

/-- A character Python's `str.strip()` removes: the whitespace set
`' '`, `'\t'`, `'\n'`, `'\r'`, `'\x0b'`, `'\x0c'`. -/
def isPySpace (c : Char) : Bool :=
  c = ' ' || c = '\t' || c = '\n' || c = '\r' || c = '\x0b' || c = '\x0c'

/-- Python `s.strip()`: drop whitespace from both ends. -/
def pyStrip (s : String) : String :=
  String.mk (((s.data.dropWhile isPySpace).reverse.dropWhile
    isPySpace).reverse)

/-- Python `s.split(',')[0]`: the characters before the first comma (the
whole string when it has no comma). -/
def pyFirstCommaField (s : String) : String :=
  String.mk (s.data.takeWhile (fun c => c ≠ ','))

/-- The record scraped from a found product page
(src/scrapers/amazon_scraper.py lines 55-90).  Each `Option String` field is
`none` when the corresponding element was missing and the except-branch set
the key to `None`.  `imageUrls` holds the already comma-joined string built
at line 84 (or `none`). -/
structure ProductData where
  asin : String
  url : String
  title : Option String
  brand : Option String
  price : Option String
  rating : Option String
  reviewCount : Option String
  bulletPoints : Option String
  imageUrls : Option String
  productDescription : Option String
deriving DecidableEq

/-- The dict returned by `scrape_product` for a found page, keys in the
source's insertion order (amazon_scraper.py lines 55-90): page data fields,
then `Status` ('Active' iff the title is truthy, line 89), then
`page_status = 'found'` (line 90). -/
def scrapedDict (d : ProductData) : Dict :=
  [("ASIN", .str d.asin), ("URL", .str d.url),
   ("Title", optVal d.title), ("Brand", optVal d.brand),
   ("Price", optVal d.price), ("Rating", optVal d.rating),
   ("Review Count", optVal d.reviewCount),
   ("Bullet Points", optVal d.bulletPoints),
   ("Image URLs", optVal d.imageUrls),
   ("Product Description", optVal d.productDescription),
   ("Status", .str (if optTruthy d.title then "Active" else "Inactive")),
   ("page_status", .str "found")]

/-- Observable outcome of one `scrape_product` call, as seen by `main`:
a not-found return (`page_status == 'not_found'`, line 53 of the scraper),
a found return carrying the scraped record, or a raised exception. -/
inductive ScrapeOutcome where
  | notFound
  | found (d : ProductData)
  | fault
deriving DecidableEq

/-- One row of the catalogue dataframe: the Baserow `id` and the
`'Marketplace ASIN/Product ID'` cell (`none` models a NaN / missing cell). -/
structure CatRow where
  id : Nat
  asin : Option String
deriving DecidableEq

/-- A row that survived the blank-identifier filter: its id and the original
(unstripped) identifier string. -/
structure PendingRow where
  id : Nat
  asin : String
deriving DecidableEq

/-- main.py lines 160-163: keep rows whose identifier cell is present and
non-blank after stripping; the identifier kept is the original cell value. -/
def filterRows (rows : List CatRow) : List PendingRow :=
  rows.filterMap (fun r =>
    match r.asin with
    | some s => if pyStrip s ≠ "" then some ⟨r.id, s⟩ else none
    | none => none)

/-- main.py lines 165-167: if the loaded checkpoint set is non-empty, drop
rows whose identifier is in it. -/
def excludeProcessed (checkpoint0 : List String) (rows : List PendingRow) :
    List PendingRow :=
  if checkpoint0 = [] then rows
  else rows.filter (fun r => decide (r.asin ∉ checkpoint0))

/-- main.py lines 171-174: `.head(scrape_limit)` when the configured limit is
positive, otherwise all rows. -/
def applyLimit (limit : Nat) (rows : List PendingRow) : List PendingRow :=
  if 0 < limit then rows.take limit else rows

/-- The rows the run will process: blank-filter, then checkpoint exclusion,
then the cap (main.py lines 160-174). -/
def pendingRows (rows : List CatRow) (checkpoint0 : List String)
    (limit : Nat) : List PendingRow :=
  applyLimit limit (excludeProcessed checkpoint0 (filterRows rows))

/-- Python `set.add` on a set modelled as a duplicate-free list. -/
def setInsert (s : List String) (a : String) : List String :=
  if a ∈ s then s else a :: s

/-- State threaded through the pass-1 loop (main.py lines 190-220):
`updates_to_send`, `failed_asins_for_retry` (as (id, ASIN) pairs),
`processed_asins`, `checkpoint_counter`, plus the trace of `scrape_product`
calls and of periodic checkpoint saves. -/
structure P1State where
  updates : List Dict
  retry : List (Nat × String)
  processed : List String
  counter : Nat
  calls : List String
  saves : List (List String)

/-- Initial loop state: empty accumulators, the loaded checkpoint set,
counter 0 (main.py lines 190-192, 165). -/
def initState (checkpoint0 : List String) : P1State :=
  ⟨[], [], checkpoint0, 0, [], []⟩

/-- Entry appended for a not-found page (main.py line 202 and line 231). -/
def notFoundEntry (rid : Nat) : Dict :=
  [("id", .int rid), ("Listing Status", .str "Deleted"),
   ("Enrichment Status", .str "ASIN Not Found")]

/-- Entry appended for a pass-1 success (main.py lines 204-206): the scraped
dict with the row id assigned into it. -/
def successEntry (rid : Nat) (d : ProductData) : Dict :=
  scrapedDict d ++ [("id", .int rid)]

/-- Entry appended for a pass-2 success (main.py lines 233-236): the scraped
dict with the row id and the retry status assigned into it. -/
def retrySuccessEntry (rid : Nat) (d : ProductData) : Dict :=
  scrapedDict d ++
    [("id", .int rid), ("Enrichment Status", .str "Success (on retry)")]

/-- Entry appended when the second attempt also fails
(main.py line 240). -/
def scrapeFailedEntry (rid : Nat) : Dict :=
  [("id", .int rid), ("Enrichment Status", .str "Scrape Failed")]

/-- main.py lines 217-220: after a non-`continue` iteration, save the
checkpoint and reset the counter once 50 items have been counted. -/
def checkpointBlock (s : P1State) : P1State :=
  if 50 ≤ s.counter then
    { s with saves := s.saves ++ [s.processed], counter := 0 }
  else s

/-- One iteration of the pass-1 loop (main.py lines 196-220).  Note the
source's control flow: the not-found branch `continue`s at line 203, before
`processed_asins.add(asin)` (line 209) and before the periodic-checkpoint
block (lines 217-220), so a not-found identifier is neither added to the
checkpoint set nor counted. -/
def p1Step (ex1 : String → ScrapeOutcome) (s : P1State) (r : PendingRow) :
    P1State :=
  let s0 := { s with calls := s.calls ++ [r.asin] }
  match ex1 r.asin with
  | .notFound => { s0 with updates := s0.updates ++ [notFoundEntry r.id] }
  | .found d =>
      if optTruthy d.title then
        checkpointBlock
          { s0 with updates := s0.updates ++ [successEntry r.id d],
                    processed := setInsert s0.processed r.asin,
                    counter := s0.counter + 1 }
      else
        checkpointBlock
          { s0 with retry := s0.retry ++ [(r.id, r.asin)],
                    processed := setInsert s0.processed r.asin,
                    counter := s0.counter + 1 }
  | .fault =>
      checkpointBlock
        { s0 with retry := s0.retry ++ [(r.id, r.asin)],
                  processed := setInsert s0.processed r.asin,
                  counter := s0.counter + 1 }

/-- The whole pass-1 loop over the pending rows, in dataframe order. -/
def pass1 (ex1 : String → ScrapeOutcome) (s : P1State)
    (rows : List PendingRow) : P1State :=
  rows.foldl (p1Step ex1) s

/-- The entry the pass-2 loop appends for one retry item
(main.py lines 228-240): not-found entry, retry-success entry, or
scrape-failed entry (the last also covers a found page without a title,
whose `raise` at line 237 lands in the same `except`). -/
def p2Entry (ex2 : String → ScrapeOutcome) (item : Nat × String) : Dict :=
  match ex2 item.2 with
  | .notFound => notFoundEntry item.1
  | .found d =>
      if optTruthy d.title then retrySuccessEntry item.1 d
      else scrapeFailedEntry item.1
  | .fault => scrapeFailedEntry item.1

/-- Pass 2 (main.py lines 223-240): one appended entry per retry item, in
retry-queue order; the checkpoint set is not touched. -/
def pass2 (ex2 : String → ScrapeOutcome) (retry : List (Nat × String)) :
    List Dict :=
  retry.map (p2Entry ex2)

/-- main.py lines 248-263.  The loop builds a `payload_item` from each
accumulated update but line 263 appends `update` — the loop variable —
so `final_payload` is exactly `updates_to_send` and the constructed
`payload_item` (see `preparedPayloadItem`) never reaches the payload. -/
def buildFinalPayload (updates : List Dict) : List Dict :=
  updates

/-- Append `(dstKey, u[srcKey])` when `u.get(srcKey)` is truthy — one
`if update.get(k): payload_item[k2] = update[k]` line of main.py 251-258. -/
def addIfTruthy (u : Dict) (srcKey dstKey : String) (acc : Dict) : Dict :=
  match dictGet u srcKey with
  | some v => if pyTruthy v then acc ++ [(dstKey, v)] else acc
  | none => acc

/-- The `payload_item` built (and then discarded) by main.py lines 250-262:
id, status defaulting to 'Success', a timestamp taken per entry, then the
sparse truthy fields, then the image columns derived from the comma-joined
`Image URLs` string. -/
def preparedPayloadItem (u : Dict) (ts : String) : Dict :=
  let base : Dict :=
    [("id", (dictGet u "id").getD .null),
     ("Enrichment Status", (dictGet u "Enrichment Status").getD
        (.str "Success")),
     ("Last Enriched At", .str ts)]
  let base := addIfTruthy u "Status" "Listing Status" base
  let base := addIfTruthy u "Title" "Title" base
  let base := addIfTruthy u "Brand" "Brand" base
  let base := addIfTruthy u "Price" "Price" base
  let base := addIfTruthy u "Rating" "Rating" base
  let base := addIfTruthy u "Review Count" "Review Count" base
  let base := addIfTruthy u "Bullet Points" "Bullet Points" base
  let base := addIfTruthy u "Product Description" "Product Description" base
  match dictGet u "Image URLs" with
  | some (.str s) =>
      if (s ≠ "" : Bool) then
        base ++ [("All Image URLs", .str s),
                 ("Product Image 1", .str (pyStrip (pyFirstCommaField s)))]
      else base
  | _ => base

/-- The observable result of one normal-termination run of `main`. -/
structure RunResult where
  updates : List Dict
  processed : List String
  calls1 : List String
  calls2 : List String
  retry : List (Nat × String)
  finalPayload : List Dict
  storeWrite : Option (List Dict)
  checkpointFileAtEnd : Bool
  extractorUsed : Bool

/-- The run of `main` (main.py lines 140-281) on its normal-termination
path, parameterised by the fetched catalogue rows, the loaded checkpoint
list, the configured cap, one scrape oracle per pass, and whether a
checkpoint file exists on disk.  The three branches are: empty catalogue
(line 157, returns without touching the checkpoint file), nothing pending
(lines 180-183, removes the checkpoint file, no scraper, no write), and the
full run (scrapes, sends the payload, removes the checkpoint file at
line 277). -/
def mainRun (rows : List CatRow) (checkpoint0 : List String) (limit : Nat)
    (ex1 ex2 : String → ScrapeOutcome) (fileExists : Bool) : RunResult :=
  if rows = [] then
    { updates := [], processed := checkpoint0, calls1 := [], calls2 := [],
      retry := [], finalPayload := [], storeWrite := none,
      checkpointFileAtEnd := fileExists, extractorUsed := false }
  else
    let pending := pendingRows rows checkpoint0 limit
    if pending = [] then
      { updates := [], processed := checkpoint0, calls1 := [], calls2 := [],
        retry := [], finalPayload := [], storeWrite := none,
        checkpointFileAtEnd := false, extractorUsed := false }
    else
      let s1 := pass1 ex1 (initState checkpoint0) pending
      let updates := s1.updates ++ pass2 ex2 s1.retry
      let fp := buildFinalPayload updates
      { updates := updates, processed := s1.processed, calls1 := s1.calls,
        calls2 := s1.retry.map (fun it => it.2), retry := s1.retry,
        finalPayload := fp,
        storeWrite := if updates = [] then none else some fp,
        checkpointFileAtEnd := false, extractorUsed := true }

/-- `json.dump(list(ids), f)` for a list of strings: the serialized text
written by `save_checkpoint` (main.py line 60).  `json.dump` separates
elements with `", "` by default. -/
def jsonDumpStrList (ids : List String) : String :=
  "[" ++ String.intercalate ", "
    (ids.map (fun s => "\x22" ++ s ++ "\x22")) ++ "]"

/-- The serialized checkpoint text as a character sequence (the bytes the
single `f.write` behind `json.dump` produces). -/
def jsonDumpChars (ids : List String) : List Char :=
  (jsonDumpStrList ids).data

/-- The file contents observable if the process crashes at some point during
`save_checkpoint` (main.py lines 57-61): before `open` the old content is
still on disk; `open(CHECKPOINT_FILE, 'w')` truncates the file to empty; the
serialized text is then written, so at a crash any prefix of it may be on
disk.  There is no temp-file-and-rename step in the source, so these
intermediate states are directly observable at the checkpoint path. -/
def saveCheckpointCrashStates (oldContent : List Char) (ids : List String) :
    List (List Char) :=
  oldContent ::
    (List.range ((jsonDumpChars ids).length + 1)).map
      (fun k => (jsonDumpChars ids).take k)

/-- `rows_data[i:i+n]` chunking of `BaserowConnector.update_rows`
(baserow_connector.py lines 61-62), written with an explicit fuel bounded by
the list length (each loop step drops `n ≥ 1` elements, so `l.length` steps
always suffice). -/
def chunkedAux (n : Nat) : Nat → List Dict → List (List Dict)
  | 0, _ => []
  | _, [] => []
  | fuel + 1, a :: l => (a :: l).take n :: chunkedAux n fuel ((a :: l).drop n)

/-- The chunks of size at most 200 (`batch_size = 200`, line 58) that the
update loop sends, in order. -/
def chunked200 (l : List Dict) : List (List Dict) :=
  chunkedAux 200 l.length l

/-- `BaserowConnector.update_rows` (baserow_connector.py lines 49-76),
parameterised by the outcome of one PATCH per chunk.  Returns the
`overall_success` flag and the list of chunks actually sent: an empty input
returns `True` at line 55 with no request; otherwise every chunk is sent
(a failed chunk only clears `overall_success`, the loop continues). -/
def updateRows (rowsData : List Dict) (send : List Dict → Bool) :
    Bool × List (List Dict) :=
  if rowsData = [] then (true, [])
  else
    let cs := chunked200 rowsData
    (cs.foldl (fun acc c => acc && send c) true, cs)

/-! ### Characterisation lemmas for the two passes -/

/-- The pass-1 entry (if any) appended for a row: the not-found entry, the
success entry, or none (fault and found-without-title rows defer to pass 2). -/
def p1Sel (ex1 : String → ScrapeOutcome) (r : PendingRow) : Option Dict :=
  match ex1 r.asin with
  | .notFound => some (notFoundEntry r.id)
  | .found d => if optTruthy d.title then some (successEntry r.id d) else none
  | .fault => none

/-- The retry-queue item (if any) a pass-1 row generates. -/
def retrySel (ex1 : String → ScrapeOutcome) (r : PendingRow) :
    Option (Nat × String) :=
  match ex1 r.asin with
  | .notFound => none
  | .found d => if optTruthy d.title then none else some (r.id, r.asin)
  | .fault => some (r.id, r.asin)

lemma checkpointBlock_updates (s : P1State) :
    (checkpointBlock s).updates = s.updates := by
  unfold checkpointBlock; split <;> rfl

lemma checkpointBlock_retry (s : P1State) :
    (checkpointBlock s).retry = s.retry := by
  unfold checkpointBlock; split <;> rfl

lemma checkpointBlock_processed (s : P1State) :
    (checkpointBlock s).processed = s.processed := by
  unfold checkpointBlock; split <;> rfl

lemma checkpointBlock_calls (s : P1State) :
    (checkpointBlock s).calls = s.calls := by
  unfold checkpointBlock; split <;> rfl

lemma setInsert_mem (s : List String) (a b : String) :
    a ∈ setInsert s b ↔ a = b ∨ a ∈ s := by
  unfold setInsert
  by_cases hb : b ∈ s
  · simp only [if_pos hb]
    exact ⟨Or.inr, fun h => h.elim (fun e => e ▸ hb) id⟩
  · simp [if_neg hb]

lemma p1Step_updates (ex1 : String → ScrapeOutcome) (s : P1State)
    (r : PendingRow) :
    (p1Step ex1 s r).updates = s.updates ++ (p1Sel ex1 r).toList := by
  unfold p1Step p1Sel
  cases hex : ex1 r.asin with
  | notFound => simp
  | found d =>
      by_cases ht : optTruthy d.title <;>
        simp [ht, checkpointBlock_updates]
  | fault => simp [checkpointBlock_updates]

lemma p1Step_retry (ex1 : String → ScrapeOutcome) (s : P1State)
    (r : PendingRow) :
    (p1Step ex1 s r).retry = s.retry ++ (retrySel ex1 r).toList := by
  unfold p1Step retrySel
  cases hex : ex1 r.asin with
  | notFound => simp
  | found d =>
      by_cases ht : optTruthy d.title <;>
        simp [ht, checkpointBlock_retry]
  | fault => simp [checkpointBlock_retry]

lemma p1Step_calls (ex1 : String → ScrapeOutcome) (s : P1State)
    (r : PendingRow) :
    (p1Step ex1 s r).calls = s.calls ++ [r.asin] := by
  unfold p1Step
  cases hex : ex1 r.asin with
  | notFound => simp
  | found d =>
      by_cases ht : optTruthy d.title <;>
        simp [ht, checkpointBlock_calls]
  | fault => simp [checkpointBlock_calls]

lemma p1Step_processed_mem (ex1 : String → ScrapeOutcome) (s : P1State)
    (r : PendingRow) (a : String) :
    a ∈ (p1Step ex1 s r).processed ↔
      a ∈ s.processed ∨ (a = r.asin ∧ ex1 r.asin ≠ .notFound) := by
  unfold p1Step
  cases hex : ex1 r.asin with
  | notFound => simp [hex]
  | found d =>
      by_cases ht : optTruthy d.title <;>
        simp [ht, hex, checkpointBlock_processed, setInsert_mem, or_comm]
  | fault => simp [hex, checkpointBlock_processed, setInsert_mem, or_comm]

lemma pass1_cons (ex1 : String → ScrapeOutcome) (s : P1State)
    (r : PendingRow) (rows : List PendingRow) :
    pass1 ex1 s (r :: rows) = pass1 ex1 (p1Step ex1 s r) rows := rfl

lemma pass1_updates (ex1 : String → ScrapeOutcome) (rows : List PendingRow) :
    ∀ s : P1State,
      (pass1 ex1 s rows).updates = s.updates ++ rows.filterMap (p1Sel ex1) := by
  induction rows with
  | nil => intro s; simp [pass1]
  | cons r rows ih =>
      intro s
      rw [pass1_cons, ih, p1Step_updates, List.filterMap_cons]
      cases p1Sel ex1 r <;> simp

lemma pass1_retry (ex1 : String → ScrapeOutcome) (rows : List PendingRow) :
    ∀ s : P1State,
      (pass1 ex1 s rows).retry = s.retry ++ rows.filterMap (retrySel ex1) := by
  induction rows with
  | nil => intro s; simp [pass1]
  | cons r rows ih =>
      intro s
      rw [pass1_cons, ih, p1Step_retry, List.filterMap_cons]
      cases retrySel ex1 r <;> simp

lemma pass1_calls (ex1 : String → ScrapeOutcome) (rows : List PendingRow) :
    ∀ s : P1State,
      (pass1 ex1 s rows).calls = s.calls ++ rows.map (fun r => r.asin) := by
  induction rows with
  | nil => intro s; simp [pass1]
  | cons r rows ih =>
      intro s
      rw [pass1_cons, ih, p1Step_calls]
      simp

lemma pass1_processed_mem (ex1 : String → ScrapeOutcome)
    (rows : List PendingRow) : ∀ (s : P1State) (a : String),
      a ∈ (pass1 ex1 s rows).processed ↔
        a ∈ s.processed ∨ ∃ r ∈ rows, a = r.asin ∧ ex1 r.asin ≠ .notFound := by
  induction rows with
  | nil => intro s a; simp [pass1]
  | cons r rows ih =>
      intro s a
      rw [pass1_cons, ih, p1Step_processed_mem]
      simp only [List.mem_cons]
      constructor
      · rintro ((h | h) | ⟨r', hr', h⟩)
        · exact Or.inl h
        · exact Or.inr ⟨r, Or.inl rfl, h⟩
        · exact Or.inr ⟨r', Or.inr hr', h⟩
      · rintro (h | ⟨r', hr' | hr', h⟩)
        · exact Or.inl (Or.inl h)
        · exact Or.inl (Or.inr (hr' ▸ h))
        · exact Or.inr ⟨r', hr', h⟩

lemma p1Sel_isSome_iff (ex1 : String → ScrapeOutcome) (r : PendingRow) :
    (p1Sel ex1 r).isSome = !(retrySel ex1 r).isSome := by
  unfold p1Sel retrySel
  cases ex1 r.asin with
  | notFound => rfl
  | found d => by_cases ht : optTruthy d.title <;> simp [ht]
  | fault => rfl

/-- Every pending row yields exactly one of: an immediate pass-1 payload
entry, or a retry-queue item — so the two counts sum to the row count. -/
lemma p1Sel_retrySel_length (ex1 : String → ScrapeOutcome)
    (rows : List PendingRow) :
    (rows.filterMap (p1Sel ex1)).length +
      (rows.filterMap (retrySel ex1)).length = rows.length := by
  induction rows with
  | nil => simp
  | cons r rows ih =>
      have hcompl := p1Sel_isSome_iff ex1 r
      rw [List.filterMap_cons, List.filterMap_cons]
      cases hp : p1Sel ex1 r <;> cases hq : retrySel ex1 r <;>
        rw [hp, hq] at hcompl <;> simp at hcompl <;>
        simp only [List.length_cons] <;> omega

lemma pendingRows_nil (checkpoint0 : List String) (limit : Nat) :
    pendingRows [] checkpoint0 limit = [] := by
  unfold pendingRows excludeProcessed applyLimit filterRows
  split <;> split <;> simp

lemma mainRun_full (rows : List CatRow) (c0 : List String) (limit : Nat)
    (ex1 ex2 : String → ScrapeOutcome) (fe : Bool)
    (h : pendingRows rows c0 limit ≠ []) :
    mainRun rows c0 limit ex1 ex2 fe =
      (let s1 := pass1 ex1 (initState c0) (pendingRows rows c0 limit)
       let updates := s1.updates ++ pass2 ex2 s1.retry
       { updates := updates, processed := s1.processed, calls1 := s1.calls,
         calls2 := s1.retry.map (fun it => it.2), retry := s1.retry,
         finalPayload := buildFinalPayload updates,
         storeWrite :=
           if updates = [] then none else some (buildFinalPayload updates),
         checkpointFileAtEnd := false, extractorUsed := true }) := by
  have hrows : rows ≠ [] := by
    intro hr
    exact h (hr ▸ pendingRows_nil c0 limit)
  unfold mainRun
  rw [if_neg hrows]
  exact if_neg h

/-! ### Lemmas about the connector's chunked update -/

lemma chunkedAux_join (n : Nat) (hn : 0 < n) :
    ∀ (fuel : Nat) (l : List Dict), l.length ≤ fuel →
      (chunkedAux n fuel l).flatten = l := by
  intro fuel
  induction fuel with
  | zero =>
      intro l hl
      cases l with
      | nil => rfl
      | cons a t => simp at hl
  | succ m ih =>
      intro l hl
      cases l with
      | nil => rfl
      | cons a t =>
          show ((a :: t).take n :: chunkedAux n m ((a :: t).drop n)).flatten
              = a :: t
          rw [List.flatten_cons, ih ((a :: t).drop n) ?_,
            List.take_append_drop]
          rw [List.length_drop]
          simp only [List.length_cons] at hl ⊢
          omega

lemma chunkedAux_mem_length (n : Nat) :
    ∀ (fuel : Nat) (l : List Dict) (c : List Dict),
      c ∈ chunkedAux n fuel l → c.length ≤ n := by
  intro fuel
  induction fuel with
  | zero => intro l c hc; cases l <;> simp [chunkedAux] at hc
  | succ m ih =>
      intro l c hc
      cases l with
      | nil => simp [chunkedAux] at hc
      | cons a t =>
          rcases List.mem_cons.1 hc with h | h
          · rw [h, List.length_take]
            exact min_le_left _ _
          · exact ih _ _ h

lemma chunked200_flatten (l : List Dict) : (chunked200 l).flatten = l :=
  chunkedAux_join 200 (by omega) l.length l le_rfl

lemma chunked200_mem_length (l c : List Dict) (hc : c ∈ chunked200 l) :
    c.length ≤ 200 :=
  chunkedAux_mem_length 200 l.length l c hc

lemma foldl_and_eq (send : List Dict → Bool) :
    ∀ (cs : List (List Dict)) (b : Bool),
      cs.foldl (fun acc c => acc && send c) b = (b && cs.all send) := by
  intro cs
  induction cs with
  | nil => intro b; simp
  | cons c cs ih =>
      intro b
      rw [List.foldl_cons, ih, List.all_cons, Bool.and_assoc]

/-! ### Concrete sample data used by counterexamples and witnesses -/

/-- A found-page record with a title and nothing else extracted. -/
def sampleFound : ProductData :=
  ⟨"A1", "https://www.amazon.in/dp/A1", some "X", none, none, none, none,
   none, none, none⟩

/-- A found-page record with a title, a brand, and two image URLs (already
comma-joined by the scraper, line 84). -/
def sampleImg : ProductData :=
  ⟨"B1", "https://www.amazon.in/dp/B1", some "T", some "B", none, none, none,
   none, some "u1, u2", none⟩

/-! ### Claim C1 -/

/-- C1 (counterexample): the claim that every attempted identifier joins the
checkpoint set the moment its pass-1 attempt concludes fails for a not-found
outcome.  One pending row with identifier "A" whose scrape returns not-found:
the pass-1 attempt concludes (its not-found entry is appended and the scrape
call was made), yet the checkpoint set is still empty — "A" is not a member
and the set size is 0 after 1 attempt, because the `continue` at main.py
line 203 skips `processed_asins.add(asin)` (line 209). -/
theorem C1_counterexample :
    pendingRows [⟨1, some "A"⟩] [] 0 = [⟨1, "A"⟩] ∧
    (pass1 (fun _ => ScrapeOutcome.notFound) (initState [])
        [(⟨1, "A"⟩ : PendingRow)]).processed = [] ∧
    (pass1 (fun _ => ScrapeOutcome.notFound) (initState [])
        [(⟨1, "A"⟩ : PendingRow)]).updates = [notFoundEntry 1] ∧
    (pass1 (fun _ => ScrapeOutcome.notFound) (initState [])
        [(⟨1, "A"⟩ : PendingRow)]).calls = ["A"] :=
  ⟨rfl, rfl, rfl, rfl⟩

/-- C1 (amended): after any number `k` of pass-1 attempts, the in-memory
checkpoint set contains exactly the loaded checkpoint identifiers together
with the identifiers among the first `k` attempted rows whose outcome was
not not-found (title-success and fault alike); in particular identifiers
whose attempt returned not-found are never added, every non-not-found
attempted identifier is a member the moment its attempt concludes, and no
identifier is ever removed. -/
theorem C1_amended_membership (ex1 : String → ScrapeOutcome)
    (checkpoint0 : List String) (rows : List PendingRow) (k : Nat)
    (a : String) :
    a ∈ (pass1 ex1 (initState checkpoint0) (rows.take k)).processed ↔
      a ∈ checkpoint0 ∨
        ∃ r ∈ rows.take k, a = r.asin ∧ ex1 r.asin ≠ .notFound := by
  simpa [initState] using
    pass1_processed_mem ex1 (rows.take k) (initState checkpoint0) a

/-! ### Claim C2 -/

/-- C2 (counterexample): a catalogue with two rows sharing identifier "A"
drives two pass-1 extractor calls — the pipeline performs no deduplication
of identifiers (main.py lines 160-174 only drop blanks, checkpointed
identifiers, and rows past the cap), so the extractor is not called exactly
once per unique identifier. -/
theorem C2_counterexample :
    (mainRun [⟨1, some "A"⟩, ⟨2, some "A"⟩] [] 0
        (fun _ => .found sampleFound) (fun _ => .fault) true).calls1
      = ["A", "A"] := rfl

/-- C2 (amended): the pipeline calls the extractor exactly once per pending
row in pass 1 (duplicate identifiers are scraped once per row, not once per
unique identifier), once per retry-queue item in pass 2, and accumulates
exactly one payload entry per pending row. -/
theorem C2_amended (rows : List CatRow) (c0 : List String) (limit : Nat)
    (ex1 ex2 : String → ScrapeOutcome) (fe : Bool)
    (h : pendingRows rows c0 limit ≠ []) :
    (mainRun rows c0 limit ex1 ex2 fe).calls1 =
        (pendingRows rows c0 limit).map (fun r => r.asin) ∧
    (mainRun rows c0 limit ex1 ex2 fe).calls2 =
        ((pendingRows rows c0 limit).filterMap (retrySel ex1)).map
          (fun it => it.2) ∧
    (mainRun rows c0 limit ex1 ex2 fe).updates.length =
        (pendingRows rows c0 limit).length := by
  rw [mainRun_full rows c0 limit ex1 ex2 fe h]
  dsimp only
  refine ⟨?_, ?_, ?_⟩
  · simpa [initState] using
      pass1_calls ex1 (pendingRows rows c0 limit) (initState c0)
  · rw [pass1_retry]
    simp [initState]
  · rw [List.length_append, pass1_updates, pass1_retry]
    simp only [initState, List.nil_append, pass2, List.length_map]
    exact p1Sel_retrySel_length ex1 (pendingRows rows c0 limit)

/-- C2 (amended, witness): the duplicate-identifier catalogue instantiates
the amended claim. -/
theorem C2_amended_witness :
    (mainRun [⟨1, some "A"⟩, ⟨2, some "A"⟩] [] 0
        (fun _ => .found sampleFound) (fun _ => .fault) true).calls1 =
        (pendingRows [⟨1, some "A"⟩, ⟨2, some "A"⟩] [] 0).map
          (fun r => r.asin) ∧
    (mainRun [⟨1, some "A"⟩, ⟨2, some "A"⟩] [] 0
        (fun _ => .found sampleFound) (fun _ => .fault) true).calls2 =
        ((pendingRows [⟨1, some "A"⟩, ⟨2, some "A"⟩] [] 0).filterMap
          (retrySel (fun _ => .found sampleFound))).map (fun it => it.2) ∧
    (mainRun [⟨1, some "A"⟩, ⟨2, some "A"⟩] [] 0
        (fun _ => .found sampleFound) (fun _ => .fault) true).updates.length =
        (pendingRows [⟨1, some "A"⟩, ⟨2, some "A"⟩] [] 0).length :=
  C2_amended [⟨1, some "A"⟩, ⟨2, some "A"⟩] [] 0
    (fun _ => .found sampleFound) (fun _ => .fault) true (by decide)

/-! ### Claim C3 -/

/-- C3 (code bug): the payload actually sent is not sparse.  With one row
whose scrape succeeds with only a title, the entry handed to the store is
the raw scraped dict: its `Brand` column carries Python `None`, it has no
timestamp column, and it even carries the scraper-internal `page_status`
key — because main.py line 263 appends `update` instead of the
`payload_item` built at lines 250-262. -/
theorem C3_code_behavior :
    (mainRun [⟨1, some "A1"⟩] [] 0 (fun _ => .found sampleFound)
        (fun _ => .fault) true).storeWrite = some [successEntry 1 sampleFound] ∧
    dictGet (successEntry 1 sampleFound) "Brand" = some PyVal.null ∧
    dictGet (successEntry 1 sampleFound) "Last Enriched At" = none ∧
    dictGet (successEntry 1 sampleFound) "page_status" =
      some (PyVal.str "found") ∧
    dictGet (preparedPayloadItem (successEntry 1 sampleFound) "ts0")
      "Brand" = none :=
  ⟨rfl, rfl, rfl, rfl, rfl⟩

/-! ### Claim C4 -/

/-- C4 (counterexample): `save_checkpoint` is not atomic.  Saving the set
{"A", "B"} over an old checkpoint containing ["A"], the truncated empty
file is one of the crash-observable states (it is what `open(..., 'w')`
leaves before `json.dump` writes), and it is neither the complete old
serialization nor the complete new one. -/
theorem C4_counterexample :
    [] ∈ saveCheckpointCrashStates (jsonDumpChars ["A"]) ["A", "B"] ∧
    ([] : List Char) ≠ jsonDumpChars ["A"] ∧
    ([] : List Char) ≠ jsonDumpChars ["A", "B"] := by
  decide

lemma jsonDumpChars_ne_nil (ids : List String) : jsonDumpChars ids ≠ [] := by
  intro e
  have h0 : (jsonDumpStrList ids).length = 0 := congrArg List.length e
  rw [jsonDumpStrList, String.length_append, String.length_append] at h0
  have h1 : ("[" : String).length = 1 := rfl
  have h2 : ("]" : String).length = 1 := rfl
  omega

/-- C4 (amended): `save_checkpoint` overwrites the checkpoint file in place
(`open(CHECKPOINT_FILE, 'w')` truncates, then `json.dump` writes, main.py
lines 59-60), so whenever the old checkpoint file is non-empty, a crash
during the save can leave on disk a state — the truncated empty file — that
is neither the complete old content nor the complete new serialized set. -/
theorem C4_amended (oldContent : List Char) (ids : List String)
    (h : oldContent ≠ []) :
    ∃ st ∈ saveCheckpointCrashStates oldContent ids,
      st ≠ oldContent ∧ st ≠ jsonDumpChars ids := by
  refine ⟨[], ?_, fun e => h e.symm, fun e => jsonDumpChars_ne_nil ids e.symm⟩
  unfold saveCheckpointCrashStates
  refine List.mem_cons_of_mem _ (List.mem_map.2 ⟨0, ?_, rfl⟩)
  exact List.mem_range.2 (Nat.succ_pos _)

/-- C4 (amended, witness): instantiated at a one-character old file and the
new set ["A"]. -/
theorem C4_amended_witness :
    ∃ st ∈ saveCheckpointCrashStates ['x'] ["A"],
      st ≠ ['x'] ∧ st ≠ jsonDumpChars ["A"] :=
  C4_amended ['x'] ["A"] (by decide)

/-! ### Claim C5 -/

/-- C5 (code bug): the entries actually sent carry no enrichment-status
label for a plain success and no timestamp at all.  With one successful
row, the final payload is the raw scraped dict: `Enrichment Status` and
`Last Enriched At` are absent, while the `payload_item` built at main.py
lines 250-262 (and discarded by the `final_payload.append(update)` slip at
line 263) would have carried both — and even that item takes a fresh
`datetime.now()` per entry (line 250), not one run-wide value. -/
theorem C5_code_behavior :
    (mainRun [⟨3, some "A1"⟩] [] 0 (fun _ => .found sampleFound)
        (fun _ => .fault) true).finalPayload = [successEntry 3 sampleFound] ∧
    dictGet (successEntry 3 sampleFound) "Enrichment Status" = none ∧
    dictGet (successEntry 3 sampleFound) "Last Enriched At" = none ∧
    dictGet (preparedPayloadItem (successEntry 3 sampleFound) "ts0")
      "Enrichment Status" = some (PyVal.str "Success") ∧
    dictGet (preparedPayloadItem (successEntry 3 sampleFound) "ts0")
      "Last Enriched At" = some (PyVal.str "ts0") :=
  ⟨rfl, rfl, rfl, rfl, rfl⟩

/-! ### Claim C6 -/

/-- C6 (code bug): the sent payload never contains the `All Image URLs`
or `Product Image 1` columns.  With a successful row whose scrape produced
image URLs "u1, u2", the entry actually sent is the raw scraped dict,
exposing only the raw `Image URLs` key; the two image columns exist only in
the `payload_item` built at main.py lines 259-262, which line 263 discards
by appending `update` instead. -/
theorem C6_code_behavior :
    (mainRun [⟨7, some "B1"⟩] [] 0 (fun _ => .found sampleImg)
        (fun _ => .fault) true).finalPayload = [successEntry 7 sampleImg] ∧
    dictGet (successEntry 7 sampleImg) "All Image URLs" = none ∧
    dictGet (successEntry 7 sampleImg) "Product Image 1" = none ∧
    dictGet (successEntry 7 sampleImg) "Image URLs" =
      some (PyVal.str "u1, u2") ∧
    dictGet (preparedPayloadItem (successEntry 7 sampleImg) "ts0")
      "All Image URLs" = some (PyVal.str "u1, u2") ∧
    dictGet (preparedPayloadItem (successEntry 7 sampleImg) "ts0")
      "Product Image 1" = some (PyVal.str "u1") :=
  ⟨rfl, rfl, rfl, rfl, rfl, rfl⟩

/-! ### Claim C7 -/

lemma dictGet_retrySuccessEntry_id (rid : Nat) (d : ProductData) :
    dictGet (retrySuccessEntry rid d) "id" = some (.int rid) := rfl

lemma dictGet_retrySuccessEntry_status (rid : Nat) (d : ProductData) :
    dictGet (retrySuccessEntry rid d) "Enrichment Status" =
      some (.str "Success (on retry)") := rfl

/-- C7: an identifier whose pass-1 attempt faults (or returns a found page
without a title, whose `raise` at main.py line 208 lands in the same
`except`) and whose pass-2 attempt returns a found page with a truthy
title appears in the final payload with the `'Success (on retry)'`
enrichment-status label set at main.py line 235 — not the plain
`'Success'` label. -/
theorem C7_retry_success_label (rows : List CatRow) (c0 : List String)
    (limit : Nat) (ex1 ex2 : String → ScrapeOutcome) (fe : Bool)
    (r : PendingRow) (d : ProductData)
    (hr : r ∈ pendingRows rows c0 limit)
    (h1 : ex1 r.asin = .fault ∨
      ∃ d0, ex1 r.asin = .found d0 ∧ optTruthy d0.title = false)
    (h2 : ex2 r.asin = .found d) (ht : optTruthy d.title = true) :
    ∃ e ∈ (mainRun rows c0 limit ex1 ex2 fe).finalPayload,
      dictGet e "id" = some (.int r.id) ∧
      dictGet e "Enrichment Status" = some (.str "Success (on retry)") ∧
      dictGet e "Enrichment Status" ≠ some (.str "Success") := by
  have hpend : pendingRows rows c0 limit ≠ [] := by
    intro h0
    rw [h0] at hr
    exact List.not_mem_nil r hr
  have hsel : retrySel ex1 r = some (r.id, r.asin) := by
    rcases h1 with h1 | ⟨d0, h1, ht0⟩
    · unfold retrySel; rw [h1]
    · unfold retrySel; rw [h1]; simp [ht0]
  have hp2 : p2Entry ex2 (r.id, r.asin) = retrySuccessEntry r.id d := by
    unfold p2Entry
    dsimp only
    rw [h2]
    simp [ht]
  rw [mainRun_full rows c0 limit ex1 ex2 fe hpend]
  dsimp only
  refine ⟨retrySuccessEntry r.id d, ?_, dictGet_retrySuccessEntry_id r.id d,
    dictGet_retrySuccessEntry_status r.id d, ?_⟩
  · unfold buildFinalPayload pass2
    refine List.mem_append.2
      (Or.inr (List.mem_map.2 ⟨(r.id, r.asin), ?_, hp2⟩))
    rw [pass1_retry]
    simp only [initState, List.nil_append]
    exact List.mem_filterMap.2 ⟨r, hr, hsel⟩
  · rw [dictGet_retrySuccessEntry_status r.id d]
    decide

/-- C7 (witness): a concrete run — one row whose first attempt faults and
whose second attempt succeeds with a title. -/
theorem C7_retry_success_label_witness :
    ∃ e ∈ (mainRun [⟨2, some "A2"⟩] [] 0 (fun _ => ScrapeOutcome.fault)
        (fun _ => ScrapeOutcome.found sampleFound) true).finalPayload,
      dictGet e "id" = some (.int 2) ∧
      dictGet e "Enrichment Status" = some (.str "Success (on retry)") ∧
      dictGet e "Enrichment Status" ≠ some (.str "Success") :=
  C7_retry_success_label [⟨2, some "A2"⟩] [] 0 (fun _ => ScrapeOutcome.fault)
    (fun _ => ScrapeOutcome.found sampleFound) true ⟨2, "A2"⟩ sampleFound
    (by decide) (Or.inl rfl) rfl (by decide)

/-! ### Claim C8 -/

/-- C8: when the catalogue is non-empty but nothing remains pending after
the blank filter, checkpoint exclusion and the cap, the run returns at
main.py lines 180-183: no scrape call is made, the scraper is never
initialised, no store write is issued, and the checkpoint file is removed
as stale. -/
theorem C8_nothing_pending (rows : List CatRow) (c0 : List String)
    (limit : Nat) (ex1 ex2 : String → ScrapeOutcome) (fe : Bool)
    (hrows : rows ≠ []) (hpend : pendingRows rows c0 limit = []) :
    (mainRun rows c0 limit ex1 ex2 fe).calls1 = [] ∧
    (mainRun rows c0 limit ex1 ex2 fe).calls2 = [] ∧
    (mainRun rows c0 limit ex1 ex2 fe).extractorUsed = false ∧
    (mainRun rows c0 limit ex1 ex2 fe).storeWrite = none ∧
    (mainRun rows c0 limit ex1 ex2 fe).checkpointFileAtEnd = false := by
  have hmain : mainRun rows c0 limit ex1 ex2 fe =
      { updates := [], processed := c0, calls1 := [], calls2 := [],
        retry := [], finalPayload := [], storeWrite := none,
        checkpointFileAtEnd := false, extractorUsed := false } := by
    unfold mainRun
    rw [if_neg hrows]
    exact if_pos hpend
  rw [hmain]
  exact ⟨rfl, rfl, rfl, rfl, rfl⟩

/-- C8 (witness): one catalogue row whose identifier is already in the
loaded checkpoint set, with a checkpoint file present on disk. -/
theorem C8_nothing_pending_witness :
    (mainRun [⟨1, some "A"⟩] ["A"] 0 (fun _ => ScrapeOutcome.fault)
        (fun _ => ScrapeOutcome.fault) true).calls1 = [] ∧
    (mainRun [⟨1, some "A"⟩] ["A"] 0 (fun _ => ScrapeOutcome.fault)
        (fun _ => ScrapeOutcome.fault) true).calls2 = [] ∧
    (mainRun [⟨1, some "A"⟩] ["A"] 0 (fun _ => ScrapeOutcome.fault)
        (fun _ => ScrapeOutcome.fault) true).extractorUsed = false ∧
    (mainRun [⟨1, some "A"⟩] ["A"] 0 (fun _ => ScrapeOutcome.fault)
        (fun _ => ScrapeOutcome.fault) true).storeWrite = none ∧
    (mainRun [⟨1, some "A"⟩] ["A"] 0 (fun _ => ScrapeOutcome.fault)
        (fun _ => ScrapeOutcome.fault) true).checkpointFileAtEnd = false :=
  C8_nothing_pending [⟨1, some "A"⟩] ["A"] 0 (fun _ => ScrapeOutcome.fault)
    (fun _ => ScrapeOutcome.fault) true (by decide) (by decide)

/-! ### Claim C9 -/

/-- C9: a row whose identifier fails extraction on both passes (a fault, or
a found page without a title, on each attempt) contributes to the final
payload exactly the two-key dict `{'id': row_id, 'Enrichment Status':
'Scrape Failed'}` built at main.py line 240 — no data column and no
timestamp, so no other store column is written for that row. -/
theorem C9_double_failure_entry (rows : List CatRow) (c0 : List String)
    (limit : Nat) (ex1 ex2 : String → ScrapeOutcome) (fe : Bool)
    (r : PendingRow)
    (hr : r ∈ pendingRows rows c0 limit)
    (h1 : ex1 r.asin = .fault ∨
      ∃ d0, ex1 r.asin = .found d0 ∧ optTruthy d0.title = false)
    (h2 : ex2 r.asin = .fault ∨
      ∃ d0, ex2 r.asin = .found d0 ∧ optTruthy d0.title = false) :
    ∃ e ∈ (mainRun rows c0 limit ex1 ex2 fe).finalPayload,
      e = [("id", PyVal.int r.id),
           ("Enrichment Status", PyVal.str "Scrape Failed")] := by
  have hpend : pendingRows rows c0 limit ≠ [] := by
    intro h0
    rw [h0] at hr
    exact List.not_mem_nil r hr
  have hsel : retrySel ex1 r = some (r.id, r.asin) := by
    rcases h1 with h1 | ⟨d0, h1, ht0⟩
    · unfold retrySel; rw [h1]
    · unfold retrySel; rw [h1]; simp [ht0]
  have hp2 : p2Entry ex2 (r.id, r.asin) = scrapeFailedEntry r.id := by
    unfold p2Entry
    dsimp only
    rcases h2 with h2 | ⟨d0, h2, ht0⟩
    · rw [h2]
    · rw [h2]; simp [ht0]
  rw [mainRun_full rows c0 limit ex1 ex2 fe hpend]
  dsimp only
  refine ⟨scrapeFailedEntry r.id, ?_, rfl⟩
  unfold buildFinalPayload pass2
  refine List.mem_append.2
    (Or.inr (List.mem_map.2 ⟨(r.id, r.asin), ?_, hp2⟩))
  rw [pass1_retry]
  simp only [initState, List.nil_append]
  exact List.mem_filterMap.2 ⟨r, hr, hsel⟩

/-- C9 (witness): one row that faults on both attempts. -/
theorem C9_double_failure_entry_witness :
    ∃ e ∈ (mainRun [⟨9, some "C1"⟩] [] 0 (fun _ => ScrapeOutcome.fault)
        (fun _ => ScrapeOutcome.fault) true).finalPayload,
      e = [("id", PyVal.int 9),
           ("Enrichment Status", PyVal.str "Scrape Failed")] :=
  C9_double_failure_entry [⟨9, some "C1"⟩] [] 0 (fun _ => ScrapeOutcome.fault)
    (fun _ => ScrapeOutcome.fault) true ⟨9, "C1"⟩ (by decide)
    (Or.inl rfl) (Or.inl rfl)

/-! ### Claim C10 -/

/-- C10: `update_rows` on an empty row list returns success with no chunk
sent (baserow_connector.py line 55); on a non-empty list it sends exactly
the slices of at most 200 rows covering the whole input — every chunk is
attempted even after a failure — and the returned flag is success exactly
when every chunk's PATCH succeeded. -/
theorem C10_update_rows (rowsData : List Dict) (send : List Dict → Bool) :
    (rowsData = [] → updateRows rowsData send = (true, [])) ∧
    (rowsData ≠ [] →
      (updateRows rowsData send).2 = chunked200 rowsData ∧
      (∀ c ∈ (updateRows rowsData send).2, c.length ≤ 200) ∧
      ((updateRows rowsData send).2).flatten = rowsData ∧
      ((updateRows rowsData send).1 = true ↔
        ∀ c ∈ (updateRows rowsData send).2, send c = true)) := by
  constructor
  · intro h
    unfold updateRows
    rw [if_pos h]
  · intro h
    have hu : updateRows rowsData send =
        ((chunked200 rowsData).foldl (fun acc c => acc && send c) true,
          chunked200 rowsData) := by
      unfold updateRows
      rw [if_neg h]
    rw [hu]
    refine ⟨rfl, fun c hc => chunked200_mem_length rowsData c hc,
      chunked200_flatten rowsData, ?_⟩
    rw [foldl_and_eq]
    simp [List.all_eq_true]

/-- C10 (witness): the empty-input branch at the empty list, and the
chunking branch at a two-row input, which one chunk covers. -/
theorem C10_update_rows_witness :
    updateRows ([] : List Dict) (fun _ => true) = (true, []) ∧
    (updateRows [[("id", PyVal.int 1)], [("id", PyVal.int 2)]]
        (fun _ => false)).2 =
      chunked200 [[("id", PyVal.int 1)], [("id", PyVal.int 2)]] :=
  ⟨(C10_update_rows [] (fun _ => true)).1 rfl,
    ((C10_update_rows [[("id", PyVal.int 1)], [("id", PyVal.int 2)]]
      (fun _ => false)).2 (by decide)).1⟩

end CatalogScraper
